import Mathlib

/-!
Verification of the `ostree fsck` builtin (`ostree_builtin_fsck` and its
helpers `fsck_pack_files` and `fsck_reachable_objects_from_commits`)
against its natural-language specification.

The C source is shallowly embedded: each GLib-style fallible call becomes a
field of an abstract repository environment (`RepoEnv`), `GError` results
become a structured `FsckError`, and the `g_print` progress calls become an
explicit trace of `ProgressMsg` values returned alongside the result.
-/

set_option autoImplicit false

deriving instance DecidableEq for Except

namespace OstreeFsck

/-- The object-type enum (`OstreeObjectType`) used by the fsck builtin. -/
inductive OstreeObjectType where
  | RAW_FILE
  | ARCHIVED_FILE_CONTENT
  | ARCHIVED_FILE_META
  | DIR_TREE
  | DIR_META
  | COMMIT
  deriving DecidableEq, Repr

/-- A serialized object name: checksum string paired with the object type
(`ostree_object_name_deserialize` output). -/
abbrev ObjectName := String × OstreeObjectType

/-- Structured form of the `GError`s the fsck builtin can set or propagate.
`corruptedObject` carries the data of the message
`"corrupted object %s.%s; actual checksum: %s"`, `packCorruptChecksum` the
data of `"corrupted pack '%s', expected checksum %s"`, and
`packCorruptOffset` the data of
`"corrupted pack '%s', offset %llu larger than file size %llu"`.
`assertFailed` models the abort of `g_assert (objtype == OSTREE_OBJECT_TYPE_COMMIT)`. -/
inductive FsckError where
  | ioFailure
  | structuralFailure
  | assertFailed
  | traverseFailure
  | corruptedObject (checksum : String) (objtype : OstreeObjectType) (actual : String)
  | packCorruptChecksum (pack : String) (actual : String)
  | packCorruptOffset (pack : String) (offset : Nat) (size : Nat)
  deriving DecidableEq, Repr

/-- One `(u, ay, t)` entry of a pack index
(`g_variant_get_child (index_variant, 2, "a(uayt)")`): object type word,
object checksum bytes, and the offset as the eight stored bytes.  Offsets
are persisted big-endian (the reader applies `GUINT64_FROM_BE`). -/
structure PackEntry where
  objtype : Nat
  sha : List Nat
  offsetBytes : List Nat
  deriving DecidableEq, Repr

/-- Big-endian decoding of the stored offset bytes, as `GUINT64_FROM_BE`
produces on the value read from the index. -/
def beDecode (bs : List Nat) : Nat :=
  bs.foldl (fun a b => a * 256 + b % 256) 0

/-- One pack as `fsck_pack_files` observes it: the checksum naming the pack,
the success bits of the fallible library calls made for it
(`ot_util_variant_map`, `ostree_validate_structureof_pack_index`,
`g_file_read`, `g_file_input_stream_query_info`, `ot_gio_checksum_stream`),
the data file's size, the checksum of the data file's content, and the
entries of child 2 of the index variant. -/
structure Pack where
  checksum : String
  mapOk : Bool
  indexValid : Bool
  readOk : Bool
  infoOk : Bool
  checksumOk : Bool
  dataSize : Nat
  contentChecksum : String
  entries : List PackEntry
  deriving DecidableEq, Repr

/-- The index/data envelope steps of `fsck_pack_files` that can fail for
reasons other than corruption: mapping and validating the index and
opening/stat-ing/hashing the data file. -/
def packEnvelopeOk (p : Pack) : Bool :=
  p.mapOk && p.indexValid && p.readOk && p.infoOk && p.checksumOk

/-- The `while (g_variant_iter_loop (...))` offset scan of `fsck_pack_files`:
fails at the first entry whose big-endian-decoded offset exceeds the data
file size, reporting the pack name, the offset and the size. -/
def checkOffsets (pack : String) (size : Nat) : List PackEntry → Except FsckError Unit
  | [] => .ok ()
  | e :: rest =>
    if beDecode e.offsetBytes > size then
      .error (.packCorruptOffset pack (beDecode e.offsetBytes) size)
    else
      checkOffsets pack size rest

/-- The per-pack body of the `for (i = 0; i < pack_indexes->len; i++)` loop
of `fsck_pack_files`: map and validate the index, open and stat the data
file, hash its content and compare against the pack's name, then bound-check
every index offset. -/
def verifyOnePack (p : Pack) : Except FsckError Unit :=
  if p.mapOk = false then .error .ioFailure
  else if p.indexValid = false then .error .structuralFailure
  else if p.readOk = false then .error .ioFailure
  else if p.infoOk = false then .error .ioFailure
  else if p.checksumOk = false then .error .ioFailure
  else if p.contentChecksum ≠ p.checksum then
    .error (.packCorruptChecksum p.checksum p.contentChecksum)
  else
    checkOffsets p.checksum p.dataSize p.entries

/-- The loop of `fsck_pack_files`, threading the `data->n_pack_files`
counter: the counter is incremented once after each pack that fully
verifies, and the loop stops at the first failing pack. -/
def fsckPackLoop (n : Nat) : List Pack → Nat × Option FsckError
  | [] => (n, none)
  | p :: rest =>
    match verifyOnePack p with
    | .ok _ => fsckPackLoop (n + 1) rest
    | .error e => (n, some e)

mutual

/-- Modelled from the spec: the part of the store that
`ostree_traverse_commit` (not part of the sources at hand) walks below one
commit — the commit's root DirMeta checksum and its root DirTree, already
resolved into a tree of loaded objects.  A missing or malformed link is
modelled by the commit failing to resolve at all (`RepoEnv.commitObj`
returning `none`). -/
inductive CommitTree where
  | mk (rootMetaChecksum : String) (rootTree : TreeObj)

/-- Modelled from the spec: one DirTree object as traversal sees it — its
own checksum, the file objects its entries reference (name elided, only the
resulting ObjectName matters to the accumulator), and its subdirectory
entries. -/
inductive TreeObj where
  | mk (checksum : String) (files : List ObjectName) (subdirs : SubdirList)

/-- Modelled from the spec: the list of (subdirectory-metadata checksum,
subdirectory tree) pairs of a DirTree. -/
inductive SubdirList where
  | nil
  | cons (metaChecksum : String) (tree : TreeObj) (rest : SubdirList)

end

/-- Insertion into the traversal accumulator: an object already present is
not inserted again (the accumulator doubles as the visited-set). -/
def insertName (n : ObjectName) (acc : List ObjectName) : List ObjectName :=
  if n ∈ acc then acc else n :: acc

mutual

/-- Modelled from the spec: visiting one DirTree during traversal — if the
tree is already in the accumulator it is not re-visited; otherwise it is
inserted, then every referenced file object, then every subdirectory's
DirMeta and DirTree recursively. -/
def traverseTree : TreeObj → List ObjectName → List ObjectName
  | .mk c files subdirs, acc =>
    if (c, OstreeObjectType.DIR_TREE) ∈ acc then acc
    else
      traverseSubdirs subdirs
        (files.foldl (fun a f => insertName f a)
          ((c, OstreeObjectType.DIR_TREE) :: acc))

/-- Modelled from the spec: visiting the subdirectory entries of a DirTree
in order — each entry's DirMeta object, then its DirTree recursively. -/
def traverseSubdirs : SubdirList → List ObjectName → List ObjectName
  | .nil, acc => acc
  | .cons m t rest, acc =>
    traverseSubdirs rest (traverseTree t (insertName (m, OstreeObjectType.DIR_META) acc))

end

/-- The abstract repository environment: the results of every fallible
library call the fsck builtin makes, indexed by the arguments the source
passes.  `commitObj` resolves a commit checksum into the tree below it for
traversal (none = traversal aborts with the underlying load error);
`loadVariantOk`/`validStructure` model `ostree_repo_load_variant` and the
`ostree_validate_structureof_*` family; `loadFileOk`/`validFileMode` model
`ostree_repo_load_file` and `ostree_validate_structureof_file_mode`;
`checksumOk`/`computedChecksum` model `ostree_checksum_file_from_input`
applied to the bytes currently stored under a checksum, in the given
checksum domain; `packs` models `ostree_repo_list_pack_indexes`. -/
structure RepoEnv where
  repoCheckOk : Bool
  listObjects : Option (List ObjectName)
  commitObj : String → Option CommitTree
  loadVariantOk : String → OstreeObjectType → Bool
  validStructure : String → OstreeObjectType → Bool
  loadFileOk : String → Bool
  validFileMode : String → Bool
  checksumOk : String → OstreeObjectType → Bool
  computedChecksum : String → OstreeObjectType → String
  packs : Option (List Pack)

/-- Modelled from the spec: `ostree_traverse_commit` proper — a commit
already present in the accumulator is a no-op; otherwise the commit is
resolved (failure aborts the traversal), inserted, and its root DirMeta and
root DirTree are visited. -/
def traverseCommit (env : RepoEnv) (c : String) (acc : List ObjectName) :
    Except FsckError (List ObjectName) :=
  if (c, OstreeObjectType.COMMIT) ∈ acc then .ok acc
  else
    match env.commitObj c with
    | none => .error .traverseFailure
    | some (.mk metaChecksum rootTree) =>
      .ok (traverseTree rootTree
        (insertName (metaChecksum, OstreeObjectType.DIR_META)
          ((c, OstreeObjectType.COMMIT) :: acc)))

/-- The first loop of `fsck_reachable_objects_from_commits`: iterate the
commits table, assert each entry is a commit object, and traverse it into
the shared reachable-set. -/
def traverseAll (env : RepoEnv) : List ObjectName → List ObjectName →
    Except FsckError (List ObjectName)
  | [], acc => .ok acc
  | n :: rest, acc =>
    if n.2 ≠ OstreeObjectType.COMMIT then .error .assertFailed
    else
      match traverseCommit env n.1 acc with
      | .error e => .error e
      | .ok acc' => traverseAll env rest acc'

/-- The checksum domain actually passed to
`ostree_checksum_file_from_input`: the object's own type, except that
`RAW_FILE` and `ARCHIVED_FILE_META` objects are digested with the type
overridden to `RAW_FILE` (`checksum_objtype = OSTREE_OBJECT_TYPE_RAW_FILE`). -/
def checksumDomain : OstreeObjectType → OstreeObjectType
  | .ARCHIVED_FILE_META => .RAW_FILE
  | t => t

/-- The load-and-validate steps of the verification loop body, per type:
metadata objects are loaded as variants and structurally validated; file
objects are loaded via `ostree_repo_load_file` and their mode validated;
`ARCHIVED_FILE_CONTENT` is not loaded at all. -/
def loadStepOk (env : RepoEnv) (c : String) : OstreeObjectType → Bool
  | .COMMIT => env.loadVariantOk c .COMMIT && env.validStructure c .COMMIT
  | .DIR_TREE => env.loadVariantOk c .DIR_TREE && env.validStructure c .DIR_TREE
  | .DIR_META => env.loadVariantOk c .DIR_META && env.validStructure c .DIR_META
  | .RAW_FILE => env.loadFileOk c && env.validFileMode c
  | .ARCHIVED_FILE_META => env.loadFileOk c && env.validFileMode c
  | .ARCHIVED_FILE_CONTENT => true

/-- The body of the second loop of `fsck_reachable_objects_from_commits`,
verifying one reachable object: load and validate it per its type (with
`ARCHIVED_FILE_CONTENT` skipped via `continue`), recompute its checksum in
its checksum domain, and compare against the claimed checksum; a mismatch
reports the claimed checksum, the claimed type, and the computed checksum. -/
def verifyObject (env : RepoEnv) (n : ObjectName) : Except FsckError Unit :=
  match n.2 with
  | .COMMIT | .DIR_TREE | .DIR_META =>
    if env.loadVariantOk n.1 n.2 = false then .error .ioFailure
    else if env.validStructure n.1 n.2 = false then .error .structuralFailure
    else if env.checksumOk n.1 n.2 = false then .error .ioFailure
    else if env.computedChecksum n.1 n.2 ≠ n.1 then
      .error (.corruptedObject n.1 n.2 (env.computedChecksum n.1 n.2))
    else .ok ()
  | .ARCHIVED_FILE_CONTENT => .ok ()
  | .RAW_FILE | .ARCHIVED_FILE_META =>
    if env.loadFileOk n.1 = false then .error .ioFailure
    else if env.validFileMode n.1 = false then .error .structuralFailure
    else if env.checksumOk n.1 .RAW_FILE = false then .error .ioFailure
    else if env.computedChecksum n.1 .RAW_FILE ≠ n.1 then
      .error (.corruptedObject n.1 n.2 (env.computedChecksum n.1 .RAW_FILE))
    else .ok ()

/-- The second loop of `fsck_reachable_objects_from_commits`: verify each
reachable object in turn, stopping at the first failure. -/
def verifyObjects (env : RepoEnv) : List ObjectName → Except FsckError Unit
  | [] => .ok ()
  | n :: rest =>
    match verifyObject env n with
    | .ok _ => verifyObjects env rest
    | .error e => .error e

/-- `fsck_reachable_objects_from_commits`: build the reachable-set from the
commits table, then verify every reachable object. -/
def fsck_reachable_objects_from_commits (env : RepoEnv) (commits : List ObjectName) :
    Except FsckError Unit :=
  match traverseAll env commits [] with
  | .error e => .error e
  | .ok reachable => verifyObjects env reachable

/-- `fsck_pack_files`: list the pack indexes (failure aborts with the
counter still zero) and run the per-pack loop, returning the final
`data->n_pack_files` value alongside the outcome. -/
def fsck_pack_files (env : RepoEnv) : Nat × Option FsckError :=
  match env.packs with
  | none => (0, some .ioFailure)
  | some l => fsckPackLoop 0 l

/-- The `g_print` progress lines of `ostree_builtin_fsck`, as structured
trace events. -/
inductive ProgressMsg where
  | enumerating
  | verifyingContent (n : Nat)
  | verifyingPacks
  deriving DecidableEq, Repr

/-- The exact strings the source prints for each progress event. -/
def ProgressMsg.render : ProgressMsg → String
  | .enumerating => "Enumerating objects...\n"
  | .verifyingContent n =>
    "Verifying content integrity of " ++ toString n ++ " commit objects...\n"
  | .verifyingPacks => "Verifying structure of pack files...\n"

/-- The option flags bound by the `GOptionEntry options[]` table: `--quiet`
("Don't display informational messages") and `--delete` ("Remove corrupted
objects"). -/
structure FsckConfig where
  quiet : Bool
  delete : Bool
  deriving DecidableEq, Repr

/-- The partition loop of `ostree_builtin_fsck`: keep exactly the
enumerated object names whose type is `COMMIT`. -/
def partitionCommits (objects : List ObjectName) : List ObjectName :=
  objects.filter (fun n => n.2 == OstreeObjectType.COMMIT)

/-- `ostree_builtin_fsck` after option parsing: check the repository,
enumerate all objects, partition out the commits, verify content integrity
of everything reachable from them, then verify the pack files — printing a
progress line before each phase and stopping at the first failing phase.
The returned trace records the progress lines in the order printed. -/
def ostree_builtin_fsck (cfg : FsckConfig) (env : RepoEnv) :
    List ProgressMsg × Except FsckError Unit :=
  if env.repoCheckOk = false then ([], .error .ioFailure)
  else
    match env.listObjects with
    | none => ([.enumerating], .error .ioFailure)
    | some objects =>
      let commits := partitionCommits objects
      match fsck_reachable_objects_from_commits env commits with
      | .error e => ([.enumerating, .verifyingContent commits.length], .error e)
      | .ok _ =>
        match fsck_pack_files env with
        | (_, some e) =>
          ([.enumerating, .verifyingContent commits.length, .verifyingPacks], .error e)
        | (_, none) =>
          ([.enumerating, .verifyingContent commits.length, .verifyingPacks], .ok ())

/-! ### Concrete example repositories used by witnesses and counterexamples -/

/-- Example DirTree with checksum `t1` referencing one raw file `f1`. -/
def treeA : TreeObj := .mk "t1" [("f1", OstreeObjectType.RAW_FILE)] .nil

/-- Example commit body: root DirMeta checksum `m1`, root tree `treeA`. -/
def commitA : CommitTree := .mk "m1" treeA

/-- An intact repository: one commit `c1` over `treeA`, every load and
validation succeeding, every object's stored bytes hashing back to its own
name, and no packs. -/
def envGood : RepoEnv where
  repoCheckOk := true
  listObjects := some [("c1", OstreeObjectType.COMMIT), ("f1", OstreeObjectType.RAW_FILE)]
  commitObj := fun c => if c = "c1" then some commitA else none
  loadVariantOk := fun _ _ => true
  validStructure := fun _ _ => true
  loadFileOk := fun _ => true
  validFileMode := fun _ => true
  checksumOk := fun _ _ => true
  computedChecksum := fun c _ => c
  packs := some []

/-- The same repository as `envGood` except that every object's stored
bytes now hash to `zz`: every reachable object is corrupted. -/
def envCorrupt : RepoEnv where
  repoCheckOk := true
  listObjects := some [("c1", OstreeObjectType.COMMIT), ("f1", OstreeObjectType.RAW_FILE)]
  commitObj := fun c => if c = "c1" then some commitA else none
  loadVariantOk := fun _ _ => true
  validStructure := fun _ _ => true
  loadFileOk := fun _ => true
  validFileMode := fun _ => true
  checksumOk := fun _ _ => true
  computedChecksum := fun _ _ => "zz"
  packs := some []

/-- A repository enumerating a single non-commit object `aa` whose stored
bytes hash to `zz` (so the object is corrupted), with no commits at all. -/
def envOrphan : RepoEnv where
  repoCheckOk := true
  listObjects := some [("aa", OstreeObjectType.DIR_TREE)]
  commitObj := fun _ => none
  loadVariantOk := fun _ _ => true
  validStructure := fun _ _ => true
  loadFileOk := fun _ => true
  validFileMode := fun _ => true
  checksumOk := fun _ _ => true
  computedChecksum := fun _ _ => "zz"
  packs := some []

/-- A completely empty repository: no objects, no packs. -/
def envEmpty : RepoEnv where
  repoCheckOk := true
  listObjects := some []
  commitObj := fun _ => none
  loadVariantOk := fun _ _ => true
  validStructure := fun _ _ => true
  loadFileOk := fun _ => true
  validFileMode := fun _ => true
  checksumOk := fun _ _ => true
  computedChecksum := fun c _ => c
  packs := some []

/-- A well-formed pack `p1`: content hashes to its name, one index entry at
big-endian offset 9 within a data file of size 10. -/
def packGood : Pack where
  checksum := "p1"
  mapOk := true
  indexValid := true
  readOk := true
  infoOk := true
  checksumOk := true
  dataSize := 10
  contentChecksum := "p1"
  entries := [⟨1, [], [0, 0, 0, 0, 0, 0, 0, 9]⟩]

/-- A corrupted pack `p2`: content checksum matches, but its index declares
an entry at big-endian offset 7 while the data file has size 4. -/
def packBad : Pack where
  checksum := "p2"
  mapOk := true
  indexValid := true
  readOk := true
  infoOk := true
  checksumOk := true
  dataSize := 4
  contentChecksum := "p2"
  entries := [⟨1, [], [0, 0, 0, 0, 0, 0, 0, 7]⟩]

/-- The empty repository, except that it lists the good pack followed by
the corrupted pack. -/
def envPacks : RepoEnv where
  repoCheckOk := true
  listObjects := some []
  commitObj := fun _ => none
  loadVariantOk := fun _ _ => true
  validStructure := fun _ _ => true
  loadFileOk := fun _ => true
  validFileMode := fun _ => true
  checksumOk := fun _ _ => true
  computedChecksum := fun c _ => c
  packs := some [packGood, packBad]

/-- The reachable-set produced by traversing `envGood`'s single commit into
an empty accumulator. -/
def reachGood : List ObjectName :=
  [("f1", OstreeObjectType.RAW_FILE), ("t1", OstreeObjectType.DIR_TREE),
   ("m1", OstreeObjectType.DIR_META), ("c1", OstreeObjectType.COMMIT)]

/-! ### Helper lemmas about the traversal accumulator -/

theorem mem_insertName (n m : ObjectName) (acc : List ObjectName) (h : n ∈ acc) :
    n ∈ insertName m acc := by
  unfold insertName
  split
  · exact h
  · exact List.mem_cons_of_mem _ h

theorem mem_foldl_insert (n : ObjectName) (l : List ObjectName) :
    ∀ acc : List ObjectName, n ∈ acc →
      n ∈ l.foldl (fun a f => insertName f a) acc := by
  induction l with
  | nil => intro acc h; exact h
  | cons f rest ih => intro acc h; exact ih _ (mem_insertName n f acc h)

mutual

theorem mem_traverseTree (n : ObjectName) : ∀ (t : TreeObj) (acc : List ObjectName),
    n ∈ acc → n ∈ traverseTree t acc
  | .mk c files subdirs, acc, h => by
    unfold traverseTree
    split
    · exact h
    · exact mem_traverseSubdirs n subdirs _
        (mem_foldl_insert n files _ (List.mem_cons_of_mem _ h))

theorem mem_traverseSubdirs (n : ObjectName) : ∀ (l : SubdirList) (acc : List ObjectName),
    n ∈ acc → n ∈ traverseSubdirs l acc
  | .nil, _, h => h
  | .cons m t rest, acc, h => by
    unfold traverseSubdirs
    exact mem_traverseSubdirs n rest _
      (mem_traverseTree n t _ (mem_insertName n _ acc h))

end

theorem traverseCommit_ok_mem_commit (env : RepoEnv) (c : String)
    (acc acc' : List ObjectName) (h : traverseCommit env c acc = .ok acc') :
    (c, OstreeObjectType.COMMIT) ∈ acc' := by
  by_cases hmem : (c, OstreeObjectType.COMMIT) ∈ acc
  · unfold traverseCommit at h
    rw [if_pos hmem] at h
    have hh := Except.ok.inj h
    subst hh
    exact hmem
  · unfold traverseCommit at h
    rw [if_neg hmem] at h
    cases hco : env.commitObj c with
    | none => rw [hco] at h; exact absurd h (by simp)
    | some ct =>
      rcases ct with ⟨mc, rt⟩
      rw [hco] at h
      have hh := Except.ok.inj h
      subst hh
      exact mem_traverseTree _ rt _ (mem_insertName _ _ _ (List.mem_cons_self _ _))

theorem traverseCommit_no_assert (env : RepoEnv) (c : String) (acc : List ObjectName) :
    traverseCommit env c acc ≠ .error .assertFailed := by
  unfold traverseCommit
  split
  · simp
  · cases hco : env.commitObj c with
    | none => simp [hco]
    | some ct => rcases ct with ⟨mc, rt⟩; simp [hco]

theorem traverseAll_no_assert (env : RepoEnv) (l : List ObjectName)
    (hl : ∀ n ∈ l, n.2 = OstreeObjectType.COMMIT) :
    ∀ acc, traverseAll env l acc ≠ .error .assertFailed := by
  induction l with
  | nil => intro acc h; exact absurd h (by simp [traverseAll])
  | cons n rest ih =>
    intro acc
    have hn := hl n (List.mem_cons_self n rest)
    simp only [traverseAll]
    rw [if_neg (by simp [hn])]
    cases hc : traverseCommit env n.1 acc with
    | error e =>
      intro h
      simp only [Except.error.injEq] at h
      subst h
      exact traverseCommit_no_assert env n.1 acc hc
    | ok acc' => exact ih (fun m hm => hl m (List.mem_cons_of_mem _ hm)) acc'

/-! ### Helper lemmas about the verification loop -/

theorem verifyObjects_ok_iff (env : RepoEnv) (l : List ObjectName) :
    verifyObjects env l = .ok () ↔ ∀ n ∈ l, verifyObject env n = .ok () := by
  induction l with
  | nil => simp [verifyObjects]
  | cons n rest ih =>
    simp only [verifyObjects]
    cases hv : verifyObject env n with
    | ok u =>
      cases u
      simp [List.forall_mem_cons, hv, ih]
    | error e => simp [List.forall_mem_cons, hv]

theorem verifyObjects_append_error (env : RepoEnv) (l₁ l₂ : List ObjectName)
    (x : ObjectName) (e : FsckError)
    (h₁ : ∀ n ∈ l₁, verifyObject env n = .ok ())
    (hx : verifyObject env x = .error e) :
    verifyObjects env (l₁ ++ x :: l₂) = .error e := by
  induction l₁ with
  | nil => simp only [List.nil_append, verifyObjects, hx]
  | cons m rest ih =>
    have hm := h₁ m (List.mem_cons_self m rest)
    simp only [List.cons_append, verifyObjects, hm]
    exact ih (fun q hq => h₁ q (List.mem_cons_of_mem _ hq))

theorem verifyObject_mismatch (env : RepoEnv) (c : String) (t : OstreeObjectType)
    (ht : t ≠ OstreeObjectType.ARCHIVED_FILE_CONTENT)
    (hload : loadStepOk env c t = true)
    (hck : env.checksumOk c (checksumDomain t) = true)
    (hmm : env.computedChecksum c (checksumDomain t) ≠ c) :
    verifyObject env (c, t) =
      .error (.corruptedObject c t (env.computedChecksum c (checksumDomain t))) := by
  cases t with
  | COMMIT =>
    simp only [loadStepOk, Bool.and_eq_true] at hload
    simp only [checksumDomain] at hck hmm
    simp [verifyObject, checksumDomain, hload.1, hload.2, hck, hmm]
  | DIR_TREE =>
    simp only [loadStepOk, Bool.and_eq_true] at hload
    simp only [checksumDomain] at hck hmm
    simp [verifyObject, checksumDomain, hload.1, hload.2, hck, hmm]
  | DIR_META =>
    simp only [loadStepOk, Bool.and_eq_true] at hload
    simp only [checksumDomain] at hck hmm
    simp [verifyObject, checksumDomain, hload.1, hload.2, hck, hmm]
  | RAW_FILE =>
    simp only [loadStepOk, Bool.and_eq_true] at hload
    simp only [checksumDomain] at hck hmm
    simp [verifyObject, checksumDomain, hload.1, hload.2, hck, hmm]
  | ARCHIVED_FILE_META =>
    simp only [loadStepOk, Bool.and_eq_true] at hload
    simp only [checksumDomain] at hck hmm
    simp [verifyObject, checksumDomain, hload.1, hload.2, hck, hmm]
  | ARCHIVED_FILE_CONTENT => exact absurd rfl ht

theorem verifyObject_file_ok_iff (env : RepoEnv) (c : String) (t : OstreeObjectType)
    (ht : t = OstreeObjectType.RAW_FILE ∨ t = OstreeObjectType.ARCHIVED_FILE_META) :
    verifyObject env (c, t) = .ok () ↔
      (env.loadFileOk c = true ∧ env.validFileMode c = true ∧
        env.checksumOk c .RAW_FILE = true ∧
        env.computedChecksum c .RAW_FILE = c) := by
  rcases ht with rfl | rfl <;>
  · simp only [verifyObject]
    cases h1 : env.loadFileOk c
    · simp [h1]
    · cases h2 : env.validFileMode c
      · simp [h2]
      · cases h3 : env.checksumOk c .RAW_FILE
        · simp [h3]
        · by_cases h4 : env.computedChecksum c .RAW_FILE = c
          · simp [h4]
          · simp [h4]

/-! ### Helper lemmas about the pack-verification loop -/

theorem checkOffsets_ok_iff (pack : String) (size : Nat) (l : List PackEntry) :
    checkOffsets pack size l = .ok () ↔ ∀ e ∈ l, beDecode e.offsetBytes ≤ size := by
  induction l with
  | nil => simp [checkOffsets]
  | cons e rest ih =>
    by_cases h : beDecode e.offsetBytes > size
    · simp only [checkOffsets, if_pos h]
      constructor
      · intro hc; exact absurd hc (by simp)
      · intro hall; exact absurd (hall e (List.mem_cons_self e rest)) (by omega)
    · simp only [checkOffsets, if_neg h, ih]
      constructor
      · intro hall x hx
        rcases List.mem_cons.mp hx with rfl | hm
        · omega
        · exact hall x hm
      · intro hall x hx
        exact hall x (List.mem_cons_of_mem _ hx)

theorem checkOffsets_append_error (pack : String) (size : Nat)
    (l₁ l₂ : List PackEntry) (e : PackEntry)
    (h₁ : ∀ x ∈ l₁, beDecode x.offsetBytes ≤ size)
    (he : size < beDecode e.offsetBytes) :
    checkOffsets pack size (l₁ ++ e :: l₂) =
      .error (.packCorruptOffset pack (beDecode e.offsetBytes) size) := by
  induction l₁ with
  | nil =>
    simp only [List.nil_append, checkOffsets]
    rw [if_pos he]
  | cons x rest ih =>
    have hx : beDecode x.offsetBytes ≤ size := h₁ x (List.mem_cons_self x rest)
    simp only [List.cons_append, checkOffsets]
    rw [if_neg (by omega)]
    exact ih (fun y hy => h₁ y (List.mem_cons_of_mem _ hy))

theorem verifyOnePack_envelope (p : Pack) (h : packEnvelopeOk p = true) :
    verifyOnePack p =
      (if p.contentChecksum ≠ p.checksum then
        .error (.packCorruptChecksum p.checksum p.contentChecksum)
      else checkOffsets p.checksum p.dataSize p.entries) := by
  simp only [packEnvelopeOk, Bool.and_eq_true] at h
  obtain ⟨⟨⟨⟨h1, h2⟩, h3⟩, h4⟩, h5⟩ := h
  simp [verifyOnePack, h1, h2, h3, h4, h5]

theorem fsckPackLoop_snd_none_iff (l : List Pack) : ∀ n : Nat,
    (fsckPackLoop n l).2 = none ↔ ∀ p ∈ l, verifyOnePack p = .ok () := by
  induction l with
  | nil => intro n; simp [fsckPackLoop]
  | cons p rest ih =>
    intro n
    simp only [fsckPackLoop]
    cases hv : verifyOnePack p with
    | ok u =>
      cases u
      simp [List.forall_mem_cons, hv, ih]
    | error e =>
      simp [List.forall_mem_cons, hv]

theorem fsckPackLoop_all_ok (l : List Pack) : ∀ n : Nat,
    (∀ p ∈ l, verifyOnePack p = .ok ()) → fsckPackLoop n l = (n + l.length, none) := by
  induction l with
  | nil => intro n _; simp [fsckPackLoop]
  | cons p rest ih =>
    intro n hall
    have hp := hall p (List.mem_cons_self p rest)
    simp only [fsckPackLoop, hp]
    have := ih (n + 1) (fun q hq => hall q (List.mem_cons_of_mem _ hq))
    rw [this]
    simp only [List.length_cons]
    congr 1
    omega

theorem fsckPackLoop_append_error (l₁ l₂ : List Pack) (p : Pack) (e : FsckError)
    (h₁ : ∀ q ∈ l₁, verifyOnePack q = .ok ())
    (hp : verifyOnePack p = .error e) : ∀ n : Nat,
    fsckPackLoop n (l₁ ++ p :: l₂) = (n + l₁.length, some e) := by
  induction l₁ with
  | nil =>
    intro n
    simp only [List.nil_append, fsckPackLoop, hp, List.length_nil, Nat.add_zero]
  | cons q rest ih =>
    intro n
    have hq := h₁ q (List.mem_cons_self q rest)
    simp only [List.cons_append, fsckPackLoop, hq]
    show fsckPackLoop (n + 1) (rest ++ p :: l₂) = _
    rw [ih (fun r hr => h₁ r (List.mem_cons_of_mem _ hr)) (n + 1)]
    simp only [List.length_cons]
    congr 1
    omega

/-! ### Shape lemmas for the fsck driver -/

theorem fsck_eq_of_repoCheck_false (cfg : FsckConfig) (env : RepoEnv)
    (h : env.repoCheckOk = false) :
    ostree_builtin_fsck cfg env = ([], .error .ioFailure) := by
  simp [ostree_builtin_fsck, h]

theorem fsck_eq_of_list_none (cfg : FsckConfig) (env : RepoEnv)
    (h1 : env.repoCheckOk = true) (h2 : env.listObjects = none) :
    ostree_builtin_fsck cfg env = ([.enumerating], .error .ioFailure) := by
  simp [ostree_builtin_fsck, h1, h2]

theorem fsck_eq_of_content_error (cfg : FsckConfig) (env : RepoEnv)
    (objs : List ObjectName) (e : FsckError)
    (h1 : env.repoCheckOk = true) (h2 : env.listObjects = some objs)
    (h3 : fsck_reachable_objects_from_commits env (partitionCommits objs) = .error e) :
    ostree_builtin_fsck cfg env =
      ([.enumerating, .verifyingContent (partitionCommits objs).length], .error e) := by
  simp [ostree_builtin_fsck, h1, h2, h3]

theorem fsck_eq_of_pack_error (cfg : FsckConfig) (env : RepoEnv)
    (objs : List ObjectName) (np : Nat) (e : FsckError)
    (h1 : env.repoCheckOk = true) (h2 : env.listObjects = some objs)
    (h3 : fsck_reachable_objects_from_commits env (partitionCommits objs) = .ok ())
    (h4 : fsck_pack_files env = (np, some e)) :
    ostree_builtin_fsck cfg env =
      ([.enumerating, .verifyingContent (partitionCommits objs).length, .verifyingPacks],
        .error e) := by
  simp [ostree_builtin_fsck, h1, h2, h3, h4]

theorem fsck_eq_ok (cfg : FsckConfig) (env : RepoEnv)
    (objs : List ObjectName) (np : Nat)
    (h1 : env.repoCheckOk = true) (h2 : env.listObjects = some objs)
    (h3 : fsck_reachable_objects_from_commits env (partitionCommits objs) = .ok ())
    (h4 : fsck_pack_files env = (np, none)) :
    ostree_builtin_fsck cfg env =
      ([.enumerating, .verifyingContent (partitionCommits objs).length, .verifyingPacks],
        .ok ()) := by
  simp [ostree_builtin_fsck, h1, h2, h3, h4]

/-! ### Claim theorems -/

/-- C1: for every pack, `fsck_pack_files`'s per-pack verification succeeds
iff the re-hashed data-file content equals the checksum naming the pack and
every big-endian-decoded index offset is at most the data file's size; a
content mismatch is reported with the pack checksum and the actual content
checksum, and an out-of-range offset with the pack checksum, the offending
offset, and the file size.  Lifted over all packs, the pack phase succeeds
iff every listed pack verifies. -/
theorem pack_verification_iff :
    (∀ p : Pack, packEnvelopeOk p = true →
      ((verifyOnePack p = .ok () ↔
          (p.contentChecksum = p.checksum ∧
            ∀ e ∈ p.entries, beDecode e.offsetBytes ≤ p.dataSize))
        ∧ (p.contentChecksum ≠ p.checksum →
            verifyOnePack p = .error (.packCorruptChecksum p.checksum p.contentChecksum))
        ∧ (∀ l₁ e l₂, p.entries = l₁ ++ e :: l₂ →
            p.contentChecksum = p.checksum →
            (∀ x ∈ l₁, beDecode x.offsetBytes ≤ p.dataSize) →
            p.dataSize < beDecode e.offsetBytes →
            verifyOnePack p =
              .error (.packCorruptOffset p.checksum (beDecode e.offsetBytes) p.dataSize))))
    ∧ (∀ (env : RepoEnv) (l : List Pack), env.packs = some l →
        ((fsck_pack_files env).2 = none ↔ ∀ p ∈ l, verifyOnePack p = .ok ())) := by
  constructor
  · intro p h
    rw [verifyOnePack_envelope p h]
    refine ⟨?_, ?_, ?_⟩
    · by_cases hc : p.contentChecksum = p.checksum
      · simp [hc, checkOffsets_ok_iff]
      · rw [if_pos hc]
        constructor
        · intro hx; exact absurd hx (by simp)
        · intro hx; exact absurd hx.1 hc
    · intro hc
      simp [hc]
    · intro l₁ e l₂ hent hc hall hbig
      rw [if_neg (not_not_intro hc), hent]
      exact checkOffsets_append_error p.checksum p.dataSize l₁ l₂ e hall hbig
  · intro env l hl
    simp only [fsck_pack_files, hl]
    exact fsckPackLoop_snd_none_iff l 0

/-- Witness for C1 at the concrete pack `packGood`. -/
theorem pack_verification_iff_witness : verifyOnePack packGood = .ok () :=
  (pack_verification_iff.1 packGood rfl).1.mpr ⟨rfl, by decide⟩

/-- C10: the pack counter `n_pack_files` is incremented exactly once per
fully verified pack — on success it equals the number of listed pack
indexes, and on failure the number of packs completely verified before the
failing one. -/
theorem pack_counter (env : RepoEnv) :
    (∀ l, env.packs = some l → (∀ p ∈ l, verifyOnePack p = .ok ()) →
      fsck_pack_files env = (l.length, none))
    ∧ (∀ l₁ p l₂ e, env.packs = some (l₁ ++ p :: l₂) →
        (∀ q ∈ l₁, verifyOnePack q = .ok ()) →
        verifyOnePack p = .error e →
        fsck_pack_files env = (l₁.length, some e)) := by
  constructor
  · intro l hl hall
    simp only [fsck_pack_files, hl]
    rw [fsckPackLoop_all_ok l 0 hall]
    simp
  · intro l₁ p l₂ e hl h₁ hp
    simp only [fsck_pack_files, hl]
    rw [fsckPackLoop_append_error l₁ l₂ p e h₁ hp 0]
    simp

/-- Witness for C10: with the good pack listed before the corrupted pack,
the counter stops at 1 and the offset error of `p2` is reported. -/
theorem pack_counter_witness :
    fsck_pack_files envPacks = (1, some (.packCorruptOffset "p2" 7 4)) :=
  (pack_counter envPacks).2 [packGood] packBad [] (.packCorruptOffset "p2" 7 4)
    rfl (by decide) (by decide)

/-- C7: re-running `ostree_traverse_commit` with the same commit checksum
into the accumulator produced by a first successful run returns that
accumulator unchanged — the accumulator is a visited-set and repeated
traversal of the same commit root is idempotent. -/
theorem traverse_commit_idempotent (env : RepoEnv) (c : String)
    (acc acc' : List ObjectName) (h : traverseCommit env c acc = .ok acc') :
    traverseCommit env c acc' = .ok acc' := by
  have hmem := traverseCommit_ok_mem_commit env c acc acc' h
  unfold traverseCommit
  rw [if_pos hmem]

/-- Witness for C7 at the concrete repository `envGood`. -/
theorem traverse_commit_idempotent_witness :
    traverseCommit envGood "c1" reachGood = .ok reachGood :=
  traverse_commit_idempotent envGood "c1" [] reachGood (by decide)

/-- C4: when all reachable objects iterated before it verify cleanly, an
object that loads and validates but whose recomputed checksum differs from
its claimed checksum makes the verification loop stop with an error carrying
the claimed checksum, the claimed type, and the computed checksum — no
object after it is verified (the result is the same for every tail `l₂`). -/
theorem first_mismatch_halts (env : RepoEnv) (l₁ l₂ : List ObjectName)
    (c : String) (t : OstreeObjectType)
    (ht : t ≠ OstreeObjectType.ARCHIVED_FILE_CONTENT)
    (hload : loadStepOk env c t = true)
    (hck : env.checksumOk c (checksumDomain t) = true)
    (hmm : env.computedChecksum c (checksumDomain t) ≠ c)
    (h₁ : ∀ n ∈ l₁, verifyObject env n = .ok ()) :
    verifyObjects env (l₁ ++ (c, t) :: l₂) =
      .error (.corruptedObject c t (env.computedChecksum c (checksumDomain t))) :=
  verifyObjects_append_error env l₁ l₂ (c, t) _ h₁
    (verifyObject_mismatch env c t ht hload hck hmm)

/-- Witness for C4: in `envCorrupt`, the corrupted raw file `f1` stops the
loop with the mismatch error, with the trailing DirTree never verified. -/
theorem first_mismatch_halts_witness :
    verifyObjects envCorrupt
        ([] ++ ("f1", OstreeObjectType.RAW_FILE) :: [("t1", OstreeObjectType.DIR_TREE)]) =
      .error (.corruptedObject "f1" OstreeObjectType.RAW_FILE "zz") :=
  first_mismatch_halts envCorrupt [] [("t1", OstreeObjectType.DIR_TREE)] "f1"
    OstreeObjectType.RAW_FILE (by decide) (by decide) (by decide) (by decide)
    (by simp)

/-- C6: an `ARCHIVED_FILE_CONTENT` object is never independently
checksum-verified (the loop skips it, succeeding unconditionally), while
`RAW_FILE` and `ARCHIVED_FILE_META` objects are both loaded as files and
digested in the `RAW_FILE` checksum domain — verification of either
succeeds exactly when the file loads, its mode validates, and its digest in
the raw-file domain equals the claimed checksum. -/
theorem archived_content_skipped (env : RepoEnv) (c : String) :
    verifyObject env (c, OstreeObjectType.ARCHIVED_FILE_CONTENT) = .ok ()
    ∧ (verifyObject env (c, OstreeObjectType.RAW_FILE) = .ok () ↔
        (env.loadFileOk c = true ∧ env.validFileMode c = true ∧
          env.checksumOk c .RAW_FILE = true ∧
          env.computedChecksum c .RAW_FILE = c))
    ∧ (verifyObject env (c, OstreeObjectType.ARCHIVED_FILE_META) = .ok () ↔
        (env.loadFileOk c = true ∧ env.validFileMode c = true ∧
          env.checksumOk c .RAW_FILE = true ∧
          env.computedChecksum c .RAW_FILE = c)) :=
  ⟨rfl, verifyObject_file_ok_iff env c _ (Or.inl rfl),
    verifyObject_file_ok_iff env c _ (Or.inr rfl)⟩

/-- Witness for C6: in `envCorrupt` — where every digest comes out `zz` —
an archived-content object still passes verification untouched. -/
theorem archived_content_skipped_witness :
    verifyObject envCorrupt ("q7", OstreeObjectType.ARCHIVED_FILE_CONTENT) = .ok () :=
  (archived_content_skipped envCorrupt "q7").1

/-- C8: the partition phase keeps exactly the enumerated object names of
type `COMMIT`, so the commit-iteration loop of
`fsck_reachable_objects_from_commits` can never trip its
`g_assert (objtype == OSTREE_OBJECT_TYPE_COMMIT)` on a partitioned table. -/
theorem partition_commits_assert (objs : List ObjectName) :
    (∀ n : ObjectName, n ∈ partitionCommits objs ↔
      (n ∈ objs ∧ n.2 = OstreeObjectType.COMMIT))
    ∧ (∀ (env : RepoEnv) (acc : List ObjectName),
        traverseAll env (partitionCommits objs) acc ≠ .error .assertFailed) := by
  have hmem : ∀ n : ObjectName, n ∈ partitionCommits objs ↔
      (n ∈ objs ∧ n.2 = OstreeObjectType.COMMIT) := by
    intro n
    simp [partitionCommits, List.mem_filter]
  refine ⟨hmem, ?_⟩
  intro env acc
  exact traverseAll_no_assert env (partitionCommits objs)
    (fun n hn => ((hmem n).mp hn).2) acc

/-- Witness for C8 on a concrete enumeration holding one commit and one
non-commit object. -/
theorem partition_commits_assert_witness :
    traverseAll envGood
        (partitionCommits
          [("c1", OstreeObjectType.COMMIT), ("aa", OstreeObjectType.DIR_TREE)]) [] ≠
      .error .assertFailed :=
  (partition_commits_assert
    [("c1", OstreeObjectType.COMMIT), ("aa", OstreeObjectType.DIR_TREE)]).2 envGood []

/-- C5: the fsck run is strictly sequential — its progress trace is always
a prefix of enumerate → content verification → pack verification, the
enumerate phase runs iff the repository check passed, the content phase
runs iff enumeration also succeeded, and the pack phase runs iff content
verification moreover returned success. -/
theorem fsck_phases_sequential (cfg : FsckConfig) (env : RepoEnv) :
    ((ostree_builtin_fsck cfg env).1 = []
      ∨ (ostree_builtin_fsck cfg env).1 = [.enumerating]
      ∨ (∃ k, (ostree_builtin_fsck cfg env).1 = [.enumerating, .verifyingContent k])
      ∨ (∃ k, (ostree_builtin_fsck cfg env).1 =
          [.enumerating, .verifyingContent k, .verifyingPacks]))
    ∧ (ProgressMsg.enumerating ∈ (ostree_builtin_fsck cfg env).1 ↔
        env.repoCheckOk = true)
    ∧ ((∃ k, ProgressMsg.verifyingContent k ∈ (ostree_builtin_fsck cfg env).1) ↔
        (env.repoCheckOk = true ∧ ∃ objs, env.listObjects = some objs))
    ∧ (ProgressMsg.verifyingPacks ∈ (ostree_builtin_fsck cfg env).1 ↔
        (env.repoCheckOk = true ∧ ∃ objs, env.listObjects = some objs ∧
          fsck_reachable_objects_from_commits env (partitionCommits objs) = .ok ())) := by
  cases hrc : env.repoCheckOk with
  | false =>
    rw [fsck_eq_of_repoCheck_false cfg env hrc]
    simp
  | true =>
    cases hobj : env.listObjects with
    | none =>
      rw [fsck_eq_of_list_none cfg env hrc hobj]
      simp
    | some objs =>
      cases hrch : fsck_reachable_objects_from_commits env (partitionCommits objs) with
      | error e =>
        rw [fsck_eq_of_content_error cfg env objs e hrc hobj hrch]
        simp [hrch]
      | ok u =>
        cases u
        rcases hfp : fsck_pack_files env with ⟨np, eo⟩
        cases eo with
        | some e =>
          rw [fsck_eq_of_pack_error cfg env objs np e hrc hobj hrch hfp]
          simp [hrch]
        | none =>
          rw [fsck_eq_ok cfg env objs np hrc hobj hrch hfp]
          simp [hrch]

/-- Witness for C5 at the intact concrete repository. -/
theorem fsck_phases_sequential_witness :
    ProgressMsg.verifyingPacks ∈ (ostree_builtin_fsck ⟨false, false⟩ envGood).1 ↔
      (envGood.repoCheckOk = true ∧ ∃ objs, envGood.listObjects = some objs ∧
        fsck_reachable_objects_from_commits envGood (partitionCommits objs) = .ok ()) :=
  (fsck_phases_sequential ⟨false, false⟩ envGood).2.2.2

/-- C2 as stated is false: `envOrphan` enumerates a single corrupted
non-commit object, fsck nevertheless succeeds, and the object would fail
verification had it been checked — an enumerated object unreachable from
any commit is silently skipped. -/
theorem enumerated_not_all_verified :
    (ostree_builtin_fsck ⟨false, false⟩ envOrphan).2 = .ok ()
    ∧ envOrphan.listObjects = some [("aa", OstreeObjectType.DIR_TREE)]
    ∧ verifyObject envOrphan ("aa", OstreeObjectType.DIR_TREE) =
        .error (.corruptedObject "aa" OstreeObjectType.DIR_TREE "zz") := by
  refine ⟨by decide, rfl, by decide⟩

/-- C2 amended: if `ostree_builtin_fsck` returns success then every object
in the reachable-set built from the enumerated commit objects passes the
verification loop body (with `ARCHIVED_FILE_CONTENT` entries skipped by
design); enumerated objects unreachable from every commit are not covered. -/
theorem success_implies_reachable_verified (cfg : FsckConfig) (env : RepoEnv)
    (objs reach : List ObjectName)
    (hok : (ostree_builtin_fsck cfg env).2 = .ok ())
    (hobj : env.listObjects = some objs)
    (htrav : traverseAll env (partitionCommits objs) [] = .ok reach) :
    ∀ n ∈ reach, verifyObject env n = .ok () := by
  cases hrc : env.repoCheckOk with
  | false =>
    rw [fsck_eq_of_repoCheck_false cfg env hrc] at hok
    exact absurd hok (by simp)
  | true =>
    cases hrch : fsck_reachable_objects_from_commits env (partitionCommits objs) with
    | error e =>
      rw [fsck_eq_of_content_error cfg env objs e hrc hobj hrch] at hok
      exact absurd hok (by simp)
    | ok u =>
      cases u
      unfold fsck_reachable_objects_from_commits at hrch
      rw [htrav] at hrch
      exact (verifyObjects_ok_iff env reach).mp hrch

/-- Witness for the amended C2 at the intact concrete repository. -/
theorem success_implies_reachable_verified_witness :
    verifyObject envGood ("c1", OstreeObjectType.COMMIT) = .ok () :=
  success_implies_reachable_verified ⟨false, false⟩ envGood
    [("c1", OstreeObjectType.COMMIT), ("f1", OstreeObjectType.RAW_FILE)] reachGood
    (by decide) rfl (by decide) ("c1", OstreeObjectType.COMMIT) (by decide)

/-- C3 is contradicted by the code: the `--delete` flag (help text "Remove
corrupted objects") is bound by option parsing but never read afterwards —
on a repository with a corrupted file object, the run with `--delete` is
identical to the run without it, and both merely report the corruption. -/
theorem delete_flag_has_no_effect :
    ostree_builtin_fsck ⟨false, true⟩ envCorrupt =
        ostree_builtin_fsck ⟨false, false⟩ envCorrupt
    ∧ (ostree_builtin_fsck ⟨false, true⟩ envCorrupt).2 =
        .error (.corruptedObject "f1" OstreeObjectType.RAW_FILE "zz") :=
  ⟨rfl, by decide⟩

/-- C9 is contradicted by the code: the `--quiet` flag (help text "Don't
display informational messages") is bound by option parsing but never read
afterwards — with quiet set, all three progress lines are still printed,
with exactly the strings of the source's `g_print` calls. -/
theorem quiet_flag_has_no_effect :
    (ostree_builtin_fsck ⟨true, false⟩ envEmpty).1 =
        [.enumerating, .verifyingContent 0, .verifyingPacks]
    ∧ (ostree_builtin_fsck ⟨true, false⟩ envEmpty).1.map ProgressMsg.render =
        ["Enumerating objects...\n",
          "Verifying content integrity of 0 commit objects...\n",
          "Verifying structure of pack files...\n"]
    ∧ ostree_builtin_fsck ⟨true, false⟩ envEmpty =
        ostree_builtin_fsck ⟨false, false⟩ envEmpty :=
  ⟨by decide, by decide, rfl⟩

end OstreeFsck
